import Mathlib

/-!
Verification of the netFIELD Proxy WebSocket client
(src/NetFieldProxyWebSocketClient.js) against its specification.

The JavaScript class is embedded shallowly:

* JSON values are modelled by the inductive `Json`; `JSON.parse` is an
  external pure function (out of scope per the spec), so an inbound
  message event carries both its raw string and its parse result.
* `JSON.stringify` is likewise kept symbolic: an outbound payload built by
  `sendObject` is transmitted as `OutData.json j`, denoting the string
  `JSON.stringify(j)`.
* `btoa` (base64 of a latin1 string) is implemented concretely.
* The client instance's fields (`clientId`, `deviceId`, `topic`,
  `authorization`) together with the WebSocket's `readyState` form the
  state record `Client`; handler invocations and socket operations are
  recorded as a list of `Effect`s, in invocation order.
* The WebSocket transport is the external collaborator of spec section 4.3:
  its `readyState` transitions (CONNECTING on construction, OPEN before the
  open event is dispatched, CLOSING on a caller close of an open socket,
  CLOSED before the close event is dispatched) follow the standard
  WebSocket contract the code relies on.
-/

namespace NetFieldProxy

/-- JSON values, as produced by `JSON.parse` (numbers restricted to
integers; no frame the client builds or inspects contains a number). -/
inductive Json where
  | null
  | bool (b : Bool)
  | num (n : Int)
  | str (s : String)
  | arr (elems : List Json)
  | obj (fields : List (String × Json))

/-- JavaScript truthiness of a JSON value. -/
def truthy : Json → Bool
  | .null => false
  | .bool b => b
  | .num n => n != 0
  | .str s => s != ""
  | .arr _ => true
  | .obj _ => true

/-- Property access `v.k` on a JSON value: a field of an object, and
`undefined` (`none`) on any non-object or missing key. -/
def getField : Json → String → Option Json
  | .obj fs, k => fs.lookup k
  | _, _ => none

/-- Truthiness of a possibly-`undefined` value (`undefined` is falsy). -/
def truthyOpt : Option Json → Bool
  | none => false
  | some j => truthy j

/-- The guard `payload && payload.error` of `_messageHandler`, applied to
the parsed frame: the destructured `payload` field is truthy and its
`error` property is truthy. -/
def hasTruthyError (j : Json) : Bool :=
  match getField j "payload" with
  | some p => truthy p && truthyOpt (getField p "error")
  | none => false

/-- The value the `switch (type)` dispatches on: the frame's `type` field
when it is a string (a non-string `type` matches none of the string case
labels, like `undefined`). -/
def frameType (j : Json) : Option String :=
  match getField j "type" with
  | some (.str s) => some s
  | _ => none

/-- The base64 alphabet. -/
def b64chars : List Char :=
  "ABCDEFGHIJKLMNOPQRSTUVWXYZabcdefghijklmnopqrstuvwxyz0123456789+/".toList

/-- Digit of the base64 alphabet. -/
def b64digit (n : Nat) : Char := b64chars.getD n '?'

/-- Base64-encode a list of byte values, three bytes to four digits, with
`=` padding. -/
def b64groups : List Nat → List Char
  | [] => []
  | [a] => [b64digit (a / 4), b64digit (a % 4 * 16), '=', '=']
  | [a, b] =>
      [b64digit (a / 4), b64digit (a % 4 * 16 + b / 16), b64digit (b % 16 * 4), '=']
  | a :: b :: c :: rest =>
      b64digit (a / 4) :: b64digit (a % 4 * 16 + b / 16) ::
      b64digit (b % 16 * 4 + c / 64) :: b64digit (c % 64) :: b64groups rest

/-- The `btoa` primitive: base64 of a string of code points below 256
(an external pure function per the spec, implemented concretely). -/
def btoa (s : String) : String :=
  String.mk (b64groups (s.toList.map Char.toNat))

/-- WebSocket `readyState` values. -/
inductive ReadyState where
  | CONNECTING
  | OPEN
  | CLOSING
  | CLOSED
deriving DecidableEq, Repr

/-- State of one `NetFieldProxyWebSocketClient` instance: the fields set by
the constructor, plus the `readyState` of the socket it owns. The handler
slots are not stored: invoking a handler is recorded as an `Effect`. -/
structure Client where
  clientId : String
  deviceId : String
  topic : String
  authorization : String
  readyState : ReadyState
deriving DecidableEq, Repr

/-- Data handed to the transport `send`: either a raw string (public
`send`) or the symbolic `JSON.stringify` of an object (`sendObject`). -/
inductive OutData where
  | str (s : String)
  | json (j : Json)

/-- Argument of an `errorHandler` invocation. -/
inductive ErrArg where
  | frameData (raw : String)
  | exn
  | transportError

/-- Observable effects of the client: transport-level sends and closes, and
Event Sink handler invocations. -/
inductive Effect where
  | transmit (d : OutData)
  | transportClose (code : Option Int) (reason : Option String)
  | invokePub (message : Option Json)
  | invokeError (e : ErrArg)
  | invokeClose
  | invokeUnexpected (raw : String)

/-- The method `send(dataString)`: transmit only when
`wsClient.readyState === wsClient.OPEN`, otherwise do nothing. -/
def send (c : Client) (d : OutData) : List Effect :=
  if c.readyState = .OPEN then [.transmit d] else []

/-- The method `sendObject(dataObj)`: serialize and `send`. -/
def sendObject (c : Client) (j : Json) : List Effect :=
  send c (.json j)

/-- The object literal `subscribePayload` built by `subscribeToTopic`. -/
def subscribePayload (c : Client) (deviceId topic : String) : Json :=
  .obj [("id", .str c.clientId),
        ("path", .str ("/devices/" ++ deviceId ++ "/netfieldproxy/" ++ btoa topic)),
        ("type", .str "sub")]

/-- The method `subscribeToTopic(deviceId, topic)`. -/
def subscribeToTopic (c : Client) (deviceId topic : String) : List Effect :=
  sendObject c (subscribePayload c deviceId topic)

/-- The object literal `helloPayload` built by `_sayHello`. -/
def helloPayload (c : Client) : Json :=
  .obj [("type", .str "hello"),
        ("auth", .obj [("headers", .obj [("authorization", .str c.authorization)])]),
        ("id", .str c.clientId),
        ("version", .str "2")]

/-- The private method `_sayHello()`, installed as `onopen`. -/
def sayHello (c : Client) : List Effect :=
  sendObject c (helloPayload c)

/-- The object literal `pingResponsePayload` built by
`_respondToHeartbeatPing`. -/
def pingResponsePayload (c : Client) : Json :=
  .obj [("id", .str c.clientId), ("type", .str "ping")]

/-- The private method `_respondToHeartbeatPing()`. -/
def respondToHeartbeatPing (c : Client) : List Effect :=
  sendObject c (pingResponsePayload c)

/-- Result of `JSON.parse` on the raw frame: a JSON value, or a thrown
`SyntaxError` for malformed text. -/
inductive ParseResult where
  | ok (j : Json)
  | err

/-- Does the destructuring `const \x7b type, message, payload \x7d = dataObj`
succeed? It throws a `TypeError` exactly when `dataObj` is `null` (JSON
values cannot be `undefined`). -/
def destructurable : Json → Bool
  | .null => false
  | _ => true

/-- The private method `_messageHandler({data})`, installed as `onmessage`:
parse (a parse failure is caught and routed to `errorHandler`; destructuring
a parsed `null` throws and is likewise caught); route a truthy
`payload.error` to `errorHandler(data)`; otherwise dispatch on `type` — the
`switch` is a chain of strict string comparisons. -/
def messageHandler (c : Client) (raw : String) (parsed : ParseResult) :
    Client × List Effect :=
  match parsed with
  | .err => (c, [.invokeError .exn])
  | .ok dataObj =>
      if !destructurable dataObj then (c, [.invokeError .exn])
      else if hasTruthyError dataObj then (c, [.invokeError (.frameData raw)])
      else if frameType dataObj = some "hello" then
        (c, subscribeToTopic c c.deviceId c.topic)
      else if frameType dataObj = some "sub" then (c, [])
      else if frameType dataObj = some "ping" then (c, respondToHeartbeatPing c)
      else if frameType dataObj = some "pub" then
        (c, [.invokePub (getField dataObj "message")])
      else (c, [.invokeUnexpected raw])

/-- Events delivered to the client: the four WebSocket events wired up by
`_initializeWebSocketClient`, plus a caller invocation of `close`. -/
inductive Event where
  | wsOpen
  | wsMessage (raw : String) (parsed : ParseResult)
  | wsError
  | wsClose
  | callerClose (code : Option Int) (reason : Option String)

/-- One event of the client's single-threaded event loop. The `readyState`
updates are those of the WebSocket transport contract (spec section 4.3):
it is `OPEN` when `onopen` fires, `CLOSING` right after `wsClient.close()`
on an open socket, and `CLOSED` when `onclose` fires. The handler bodies
are the code's. -/
def step (c : Client) : Event → Client × List Effect
  | .wsOpen =>
      let c1 : Client := { c with readyState := .OPEN }
      (c1, sayHello c1)
  | .wsMessage raw parsed => messageHandler c raw parsed
  | .wsError => (c, [.invokeError .transportError])
  | .wsClose => ({ c with readyState := .CLOSED }, [.invokeClose])
  | .callerClose code reason =>
      if c.readyState = .OPEN then
        ({ c with readyState := .CLOSING }, [.transportClose code reason])
      else (c, [])

/-- Run the client over a sequence of events, concatenating effects in
order. -/
def run (c : Client) : List Event → Client × List Effect
  | [] => (c, [])
  | e :: es =>
      let se := step c e
      let re := run se.1 es
      (re.1, se.2 ++ re.2)

/-- Modelled from the spec: the connection-phase values of the Protocol
State Machine of spec section 4.1 (the code under src/ keeps no phase
variable; this machine transcribes the spec's transition table and is
compared against the code's behaviour). -/
inductive Phase where
  | CONNECTING
  | AWAITING_HELLO_ACK
  | SUBSCRIBING
  | ACTIVE
  | CLOSED
deriving DecidableEq, Repr

/-- Modelled from the spec: the transition table of spec section 4.1,
one step per delivered event. Rows not listed in the table leave the
phase unchanged; error-bearing frames, unrecognized types and decode
failures do not advance the phase; close (caller- or transport-initiated)
goes to `CLOSED`. -/
def specStep (p : Phase) : Event → Phase
  | .wsOpen => if p = .CONNECTING then .AWAITING_HELLO_ACK else p
  | .wsMessage _ parsed =>
      match parsed with
      | .err => p
      | .ok j =>
          if hasTruthyError j then p
          else if frameType j = some "hello" ∧ p = .AWAITING_HELLO_ACK then
            .SUBSCRIBING
          else if frameType j = some "sub" ∧ p = .SUBSCRIBING then .ACTIVE
          else p
  | .wsError => p
  | .wsClose => .CLOSED
  | .callerClose _ _ => .CLOSED

/-- Modelled from the spec: the phase after a sequence of events. -/
def specRun (p : Phase) (es : List Event) : Phase :=
  es.foldl specStep p

/-- Does an effect transmit a frame whose `type` is `"sub"`? -/
def isSubTransmit : Effect → Bool
  | .transmit (.json j) => frameType j == some "sub"
  | _ => false

/-- Base-36 digit characters, as used by `Number.prototype.toString(36)`. -/
def base36digit (n : Nat) : Char :=
  "0123456789abcdefghijklmnopqrstuvwxyz".toList.getD n '?'

/-- Base-36 digits of the fraction `m / 2 ^ 52`, most significant first,
without trailing zeros (the expansion of a dyadic rational in base 36
terminates; 26 steps always suffice since each digit removes a factor of
4 from the denominator). -/
def fracDigits36 : Nat → Nat → List Char
  | 0, _ => []
  | _, 0 => []
  | fuel + 1, m =>
      base36digit (m * 36 / 2 ^ 52) :: fracDigits36 fuel (m * 36 % 2 ^ 52)

/-- Modelled view of `(r + 1).toString(36)` where `r = Math.random()`:
doubles in `[1, 2)` are exactly the values `1 + m / 2 ^ 52` with
`m < 2 ^ 52`, and their exact base-36 rendering is `"1"` when the fraction
is zero, else `"1."` followed by the fraction's digits. -/
def toString36OnePlus (m : Nat) : String :=
  if m = 0 then "1" else "1." ++ String.mk (fracDigits36 26 m)

/-- The constructor's clientId generator
`(Math.random() + 1).toString(36).substring(7)`, as a function of the
significand `m` of the double `Math.random() + 1 = 1 + m / 2 ^ 52`
(every such `m` is reachable: `Math.random()` can return exactly
`m / 2 ^ 52`, and adding 1 is then exact). -/
def generatedClientId (m : Nat) : String :=
  (toString36OnePlus m).drop 7


/-- A concrete client, as a test fixture: topic "/t" on device "D1"
(spec section 8 scenarios), socket still connecting. -/
def demoConnecting : Client :=
  { clientId := "abc123", deviceId := "D1", topic := "/t",
    authorization := "token", readyState := .CONNECTING }

/-- The same client once the transport is open. -/
def demoOpen : Client :=
  { demoConnecting with readyState := .OPEN }

/-- The same client after the socket has closed. -/
def demoClosed : Client :=
  { demoConnecting with readyState := .CLOSED }

/-- A minimal hello acknowledgement frame from the server. -/
def helloFrame : Json := .obj [("type", .str "hello")]

/-- A minimal sub acknowledgement frame from the server. -/
def subFrame : Json := .obj [("type", .str "sub")]

/-- A minimal heartbeat ping frame from the server. -/
def pingFrame : Json := .obj [("type", .str "ping")]

/-- A pub frame carrying the message "m". -/
def pubFrameM : Json := .obj [("type", .str "pub"), ("message", .str "m")]

/-- A frame of type ping carrying a truthy error payload. -/
def errFrame : Json :=
  .obj [("type", .str "ping"), ("payload", .obj [("error", .str "Unauthorized")])]

/-- A frame whose `type` field is a string implies the frame destructures
(only `null` fails to destructure, and `null` has no fields). -/
theorem destructurable_of_frameType {j : Json} {t : String}
    (h : frameType j = some t) : destructurable j = true := by
  cases j with
  | null => simp [frameType, getField] at h
  | bool b => rfl
  | num n => rfl
  | str s => rfl
  | arr xs => rfl
  | obj fs => rfl

/-- Dispatch lemma: a no-error hello frame triggers `subscribeToTopic`. -/
theorem messageHandler_hello (c : Client) (raw : String) {j : Json}
    (hT : frameType j = some "hello") (hE : hasTruthyError j = false) :
    messageHandler c raw (.ok j) = (c, subscribeToTopic c c.deviceId c.topic) := by
  simp [messageHandler, destructurable_of_frameType hT, hE, hT]

/-- Dispatch lemma: a no-error sub frame is acknowledged silently. -/
theorem messageHandler_sub (c : Client) (raw : String) {j : Json}
    (hT : frameType j = some "sub") (hE : hasTruthyError j = false) :
    messageHandler c raw (.ok j) = (c, []) := by
  simp [messageHandler, destructurable_of_frameType hT, hE, hT]

/-- Dispatch lemma: a no-error ping frame triggers the heartbeat reply. -/
theorem messageHandler_ping (c : Client) (raw : String) {j : Json}
    (hT : frameType j = some "ping") (hE : hasTruthyError j = false) :
    messageHandler c raw (.ok j) = (c, respondToHeartbeatPing c) := by
  simp [messageHandler, destructurable_of_frameType hT, hE, hT]

/-- Dispatch lemma: a no-error pub frame is forwarded to the publish
handler. -/
theorem messageHandler_pub (c : Client) (raw : String) {j : Json}
    (hT : frameType j = some "pub") (hE : hasTruthyError j = false) :
    messageHandler c raw (.ok j) = (c, [.invokePub (getField j "message")]) := by
  simp [messageHandler, destructurable_of_frameType hT, hE, hT]

/-- The message handler never changes the client state: every branch
returns `c` unchanged. -/
theorem messageHandler_fst (c : Client) (raw : String) (p : ParseResult) :
    (messageHandler c raw p).1 = c := by
  unfold messageHandler
  rcases p with j | _
  · dsimp only
    split
    · rfl
    · split
      · rfl
      · split
        · rfl
        · split
          · rfl
          · split
            · rfl
            · split <;> rfl
  · rfl

/-- A frame carrying a truthy error payload is an object with a `payload`
field, hence destructures. -/
theorem destructurable_of_hasTruthyError {j : Json}
    (h : hasTruthyError j = true) : destructurable j = true := by
  cases j with
  | null => simp [hasTruthyError, getField] at h
  | bool b => rfl
  | num n => rfl
  | str s => rfl
  | arr xs => rfl
  | obj fs => rfl

/-- C3: error precedence — every inbound frame whose decoded payload
carries a truthy `payload.error` is routed to the error handler with the
frame's raw content, no other handler is invoked, the `type` is not
dispatched, the client state is unchanged, and the spec-table phase does
not advance. -/
theorem c3_error_precedence (c : Client) (raw : String) (j : Json)
    (h : hasTruthyError j = true) :
    messageHandler c raw (.ok j) = (c, [.invokeError (.frameData raw)])
    ∧ ∀ p : Phase, specStep p (.wsMessage raw (.ok j)) = p := by
  constructor
  · simp [messageHandler, destructurable_of_hasTruthyError h, h]
  · intro p
    simp [specStep, h]

/-- Witness for C3 at the fixture error frame. -/
theorem c3_error_precedence_witness :
    hasTruthyError errFrame = true
    ∧ (messageHandler demoOpen "raw" (.ok errFrame)
        = (demoOpen, [.invokeError (.frameData "raw")])
      ∧ ∀ p : Phase, specStep p (.wsMessage "raw" (.ok errFrame)) = p) :=
  ⟨rfl, c3_error_precedence demoOpen "raw" errFrame rfl⟩

/-- C6: send guard — while the transport is not open, the raw `send`, the
serialized `sendObject`, and every protocol-generated frame (`_sayHello`,
`subscribeToTopic`, `_respondToHeartbeatPing`) produce no effect at all:
nothing transmitted, nothing queued, no handler invoked, no exception. -/
theorem c6_send_guard (c : Client) (h : c.readyState ≠ .OPEN)
    (d : OutData) (j : Json) :
    send c d = [] ∧ sendObject c j = [] ∧ sayHello c = []
    ∧ subscribeToTopic c c.deviceId c.topic = []
    ∧ respondToHeartbeatPing c = [] := by
  simp [send, sendObject, sayHello, subscribeToTopic, respondToHeartbeatPing, h]

/-- Witness for C6 on a closed socket. -/
theorem c6_send_guard_witness :
    demoClosed.readyState ≠ .OPEN
    ∧ (send demoClosed (.str "x") = [] ∧ sendObject demoClosed helloFrame = []
      ∧ sayHello demoClosed = []
      ∧ subscribeToTopic demoClosed demoClosed.deviceId demoClosed.topic = []
      ∧ respondToHeartbeatPing demoClosed = []) :=
  ⟨by decide, c6_send_guard demoClosed (by decide) (.str "x") helloFrame⟩

/-- C8: for every inbound no-error ping frame received while the socket is
open (as it is in the ACTIVE phase), exactly one response frame is sent,
and it is exactly the two-field mapping of `id` (the session clientId) and
`type` `"ping"`. -/
theorem c8_ping_response (c : Client) (h : c.readyState = .OPEN)
    (raw : String) (j : Json)
    (hT : frameType j = some "ping") (hE : hasTruthyError j = false) :
    messageHandler c raw (.ok j)
      = (c, [.transmit (.json (.obj [("id", .str c.clientId),
                                     ("type", .str "ping")]))]) := by
  rw [messageHandler_ping c raw hT hE]
  simp [respondToHeartbeatPing, sendObject, send, pingResponsePayload, h]

/-- Witness for C8 at the fixture ping frame. -/
theorem c8_ping_response_witness :
    demoOpen.readyState = .OPEN
    ∧ frameType pingFrame = some "ping"
    ∧ hasTruthyError pingFrame = false
    ∧ messageHandler demoOpen "png" (.ok pingFrame)
        = (demoOpen, [.transmit (.json (.obj [("id", .str demoOpen.clientId),
                                              ("type", .str "ping")]))]) :=
  ⟨rfl, rfl, rfl, c8_ping_response demoOpen rfl "png" pingFrame rfl rfl⟩

/-- C9: every inbound pub frame without an error payload invokes the
publish handler exactly once, with exactly the frame's `message` field,
verbatim and untransformed. -/
theorem c9_pub_forward (c : Client) (raw : String) (j : Json)
    (hT : frameType j = some "pub") (hE : hasTruthyError j = false) :
    messageHandler c raw (.ok j) = (c, [.invokePub (getField j "message")]) :=
  messageHandler_pub c raw hT hE

/-- Witness for C9 at the fixture pub frame. -/
theorem c9_pub_forward_witness :
    frameType pubFrameM = some "pub"
    ∧ hasTruthyError pubFrameM = false
    ∧ messageHandler demoOpen "pb" (.ok pubFrameM)
        = (demoOpen, [.invokePub (getField pubFrameM "message")]) :=
  ⟨rfl, rfl, c9_pub_forward demoOpen "pb" pubFrameM rfl rfl⟩

/-- Run the message handler over a list of raw/parsed inbound frames. -/
def runMessages (c : Client) (frames : List (String × ParseResult)) :
    Client × List Effect :=
  run c (frames.map fun f => Event.wsMessage f.1 f.2)

/-- C10: handling inbound frames mutates no client state — after any list
of inbound frames the client record (clientId, deviceId, topic,
authorization, socket handle state) is unchanged — so the handler's
response to a frame is a deterministic function of that frame and the
session identity, independent of previously received frames. -/
theorem c10_stateless_dispatch (c : Client)
    (frames : List (String × ParseResult)) (raw : String) (p : ParseResult) :
    (messageHandler c raw p).1 = c
    ∧ (runMessages c frames).1 = c
    ∧ messageHandler (runMessages c frames).1 raw p = messageHandler c raw p := by
  have hrun : ∀ (cs : Client) (fs : List (String × ParseResult)),
      (runMessages cs fs).1 = cs := by
    intro cs fs
    induction fs generalizing cs with
    | nil => rfl
    | cons f fs ih =>
        have h1 : (step cs (Event.wsMessage f.1 f.2)).1 = cs :=
          messageHandler_fst cs f.1 f.2
        calc (runMessages cs (f :: fs)).1
            = (runMessages (step cs (Event.wsMessage f.1 f.2)).1 fs).1 := rfl
          _ = (step cs (Event.wsMessage f.1 f.2)).1 := ih _
          _ = cs := h1
  exact ⟨messageHandler_fst c raw p, hrun c frames, by rw [hrun c frames]⟩

/-- Record updates of `readyState` do not change the hello payload. -/
theorem helloPayload_readyState (c : Client) (rs : ReadyState) :
    helloPayload { c with readyState := rs } = helloPayload c := rfl

/-- Record updates of `readyState` do not change the subscribe payload. -/
theorem subscribePayload_readyState (c : Client) (rs : ReadyState)
    (d t : String) :
    subscribePayload { c with readyState := rs } d t = subscribePayload c d t :=
  rfl

/-- A transmitted hello payload is not a sub frame. -/
theorem isSubTransmit_hello (c : Client) :
    isSubTransmit (.transmit (.json (helloPayload c))) = false := rfl

/-- A transmitted subscribe payload is a sub frame. -/
theorem isSubTransmit_sub (c : Client) (d t : String) :
    isSubTransmit (.transmit (.json (subscribePayload c d t))) = true := rfl

/-- C2: valid handshake — after the open event, a no-error hello
acknowledgement and a no-error sub acknowledgement, the spec-table phase
is ACTIVE, the client transmitted exactly the hello frame and then exactly
one sub frame, and that sub frame's `path` is
`/devices/` ++ deviceId ++ `/netfieldproxy/` ++ base64(topic) with `id`
the session clientId. -/
theorem c2_handshake (c : Client) (_h : c.readyState = .CONNECTING)
    (rawH rawS : String) (jH jS : Json)
    (hHT : frameType jH = some "hello") (hHE : hasTruthyError jH = false)
    (hST : frameType jS = some "sub") (hSE : hasTruthyError jS = false) :
    run c [.wsOpen, .wsMessage rawH (.ok jH), .wsMessage rawS (.ok jS)]
      = ({ c with readyState := .OPEN },
         [.transmit (.json (helloPayload c)),
          .transmit (.json (subscribePayload c c.deviceId c.topic))])
    ∧ (run c [.wsOpen, .wsMessage rawH (.ok jH),
          .wsMessage rawS (.ok jS)]).2.countP isSubTransmit = 1
    ∧ specRun .CONNECTING
        [.wsOpen, .wsMessage rawH (.ok jH), .wsMessage rawS (.ok jS)] = .ACTIVE
    ∧ getField (subscribePayload c c.deviceId c.topic) "path"
        = some (.str ("/devices/" ++ c.deviceId ++ "/netfieldproxy/"
            ++ btoa c.topic))
    ∧ getField (subscribePayload c c.deviceId c.topic) "id"
        = some (.str c.clientId) := by
  have hm1 := messageHandler_hello { c with readyState := .OPEN } rawH hHT hHE
  have hm2 := messageHandler_sub { c with readyState := .OPEN } rawS hST hSE
  have hrun : run c [.wsOpen, .wsMessage rawH (.ok jH), .wsMessage rawS (.ok jS)]
      = ({ c with readyState := .OPEN },
         [.transmit (.json (helloPayload c)),
          .transmit (.json (subscribePayload c c.deviceId c.topic))]) := by
    simp only [run, step, hm1, hm2]
    simp [sayHello, sendObject, send, subscribeToTopic,
      helloPayload_readyState, subscribePayload_readyState]
  refine ⟨hrun, ?_, ?_, rfl, rfl⟩
  · rw [hrun]
    simp [List.countP_cons, isSubTransmit_hello, isSubTransmit_sub]
  · simp [specRun, specStep, hHT, hHE, hST, hSE]

/-- Witness for C2: the section 8 scenario, topic "/t" on device "D1". -/
theorem c2_handshake_witness :
    demoConnecting.readyState = .CONNECTING
    ∧ frameType helloFrame = some "hello"
    ∧ hasTruthyError helloFrame = false
    ∧ frameType subFrame = some "sub"
    ∧ hasTruthyError subFrame = false
    ∧ subscribePayload demoConnecting "D1" "/t"
        = .obj [("id", .str "abc123"),
                ("path", .str "/devices/D1/netfieldproxy/L3Q="),
                ("type", .str "sub")]
    ∧ (run demoConnecting
          [.wsOpen, .wsMessage "h" (.ok helloFrame), .wsMessage "s" (.ok subFrame)]
        = (demoOpen,
           [.transmit (.json (helloPayload demoConnecting)),
            .transmit (.json (subscribePayload demoConnecting "D1" "/t"))])
      ∧ (run demoConnecting
            [.wsOpen, .wsMessage "h" (.ok helloFrame),
             .wsMessage "s" (.ok subFrame)]).2.countP isSubTransmit = 1
      ∧ specRun .CONNECTING
          [.wsOpen, .wsMessage "h" (.ok helloFrame),
           .wsMessage "s" (.ok subFrame)] = .ACTIVE
      ∧ getField (subscribePayload demoConnecting "D1" "/t") "path"
          = some (.str ("/devices/" ++ "D1" ++ "/netfieldproxy/" ++ btoa "/t"))
      ∧ getField (subscribePayload demoConnecting "D1" "/t") "id"
          = some (.str "abc123")) :=
  ⟨rfl, rfl, rfl, rfl, rfl, rfl,
   c2_handshake demoConnecting rfl "h" "s" helloFrame subFrame rfl rfl rfl rfl⟩

/-- C7: close is idempotent — from an open socket, two successive caller
closes issue exactly one transport-level close (the second call is a
no-op, the state already being CLOSING), and the single transport close
event that follows invokes the close handler exactly once. -/
theorem c7_close_idempotent (c : Client) (h : c.readyState = .OPEN)
    (code : Option Int) (reason : Option String) :
    run c [.callerClose code reason, .callerClose code reason]
      = ({ c with readyState := .CLOSING }, [.transportClose code reason])
    ∧ run c [.callerClose code reason, .callerClose code reason, .wsClose]
      = ({ c with readyState := .CLOSED },
         [.transportClose code reason, .invokeClose]) := by
  constructor <;> simp [run, step, h]

/-- Witness for C7 on the open fixture client. -/
theorem c7_close_idempotent_witness :
    demoOpen.readyState = .OPEN
    ∧ (run demoOpen [.callerClose none none, .callerClose none none]
        = ({ demoOpen with readyState := .CLOSING }, [.transportClose none none])
      ∧ run demoOpen [.callerClose none none, .callerClose none none, .wsClose]
        = ({ demoOpen with readyState := .CLOSED },
           [.transportClose none none, .invokeClose])) :=
  ⟨rfl, c7_close_idempotent demoOpen rfl none none⟩

/-- C1 counterexample: the code has no phase gating — a pub frame arriving
right after the open event, before any hello or sub acknowledgement, is
already forwarded to the publish handler although the spec-table phase is
AWAITING_HELLO_ACK (not ACTIVE), and a repeated hello acknowledgement on
the same connection triggers a second sub frame. -/
theorem c1_counterexample :
    (run demoConnecting [.wsOpen, .wsMessage "p" (.ok pubFrameM)]).2
      = [.transmit (.json (helloPayload demoConnecting)),
         .invokePub (some (.str "m"))]
    ∧ specRun .CONNECTING [.wsOpen, .wsMessage "p" (.ok pubFrameM)]
        = .AWAITING_HELLO_ACK
    ∧ (run demoConnecting
          [.wsOpen, .wsMessage "h" (.ok helloFrame),
           .wsMessage "h" (.ok helloFrame)]).2.countP isSubTransmit = 2 :=
  ⟨rfl, rfl, rfl⟩

/-- C1 amended: the dispatcher is phase-free — an inbound no-error pub
frame is forwarded to the publish handler in every state, before or after
any acknowledgement, and every inbound no-error hello acknowledgement
triggers the sub frame, once per hello received rather than once per
connection. -/
theorem c1_amended (c : Client) (raw : String) (j : Json) :
    (frameType j = some "pub" → hasTruthyError j = false →
      messageHandler c raw (.ok j) = (c, [.invokePub (getField j "message")]))
    ∧ (frameType j = some "hello" → hasTruthyError j = false →
      messageHandler c raw (.ok j) = (c, subscribeToTopic c c.deviceId c.topic)) :=
  ⟨fun hT hE => messageHandler_pub c raw hT hE,
   fun hT hE => messageHandler_hello c raw hT hE⟩

/-- Witness for the amended C1: the pub and hello fixtures, handled while
the socket is still connecting. -/
theorem c1_amended_witness :
    (frameType pubFrameM = some "pub" ∧ hasTruthyError pubFrameM = false
      ∧ messageHandler demoConnecting "p" (.ok pubFrameM)
          = (demoConnecting, [.invokePub (some (.str "m"))]))
    ∧ (frameType helloFrame = some "hello" ∧ hasTruthyError helloFrame = false
      ∧ messageHandler demoConnecting "h" (.ok helloFrame)
          = (demoConnecting, subscribeToTopic demoConnecting "D1" "/t")) :=
  ⟨⟨rfl, rfl, (c1_amended demoConnecting "p" pubFrameM).1 rfl rfl⟩,
   ⟨rfl, rfl, (c1_amended demoConnecting "h" helloFrame).2 rfl rfl⟩⟩

/-- C4 counterexample: a caller close while the transport is still
CONNECTING is a complete no-op — no transport close, no closed-handler
invocation, no state change — and a pub frame delivered after a close is
not ignored: the publish handler still runs. -/
theorem c4_counterexample :
    run demoConnecting [.callerClose none none] = (demoConnecting, [])
    ∧ (run demoOpen [.callerClose none none, .wsMessage "p" (.ok pubFrameM)]).2
        = [.transportClose none none, .invokePub (some (.str "m"))] :=
  ⟨rfl, rfl⟩

/-- C4 amended: a caller-initiated close releases the socket only from the
transport OPEN state — there it issues exactly one transport close and the
subsequent transport close event invokes the closed handler once, ending
CLOSED; in every other transport state (including CONNECTING) the call is
a no-op; and frames delivered after a close are still dispatched to
handlers, only outbound replies being suppressed by the send guard. -/
theorem c4_amended (c : Client) (code : Option Int) (reason : Option String) :
    (c.readyState = .OPEN →
      run c [.callerClose code reason, .wsClose]
        = ({ c with readyState := .CLOSED },
           [.transportClose code reason, .invokeClose]))
    ∧ (c.readyState ≠ .OPEN → step c (.callerClose code reason) = (c, []))
    ∧ (∀ (raw : String) (j : Json), frameType j = some "pub" →
        hasTruthyError j = false →
        (step { c with readyState := .CLOSING } (.wsMessage raw (.ok j))).2
          = [.invokePub (getField j "message")]) := by
  refine ⟨fun h => ?_, fun h => ?_, fun raw j hT hE => ?_⟩
  · simp [run, step, h]
  · simp [step, h]
  · show (messageHandler { c with readyState := .CLOSING } raw (.ok j)).2 = _
    rw [messageHandler_pub { c with readyState := .CLOSING } raw hT hE]

/-- Witness for the amended C4: close from OPEN, close from CONNECTING,
and a pub frame delivered while CLOSING. -/
theorem c4_amended_witness :
    (demoOpen.readyState = .OPEN
      ∧ run demoOpen [.callerClose none none, .wsClose]
          = ({ demoOpen with readyState := .CLOSED },
             [.transportClose none none, .invokeClose]))
    ∧ (demoConnecting.readyState ≠ .OPEN
      ∧ step demoConnecting (.callerClose none none) = (demoConnecting, []))
    ∧ (frameType pubFrameM = some "pub" ∧ hasTruthyError pubFrameM = false
      ∧ (step { demoOpen with readyState := .CLOSING }
            (.wsMessage "p" (.ok pubFrameM))).2
          = [.invokePub (some (.str "m"))]) :=
  ⟨⟨rfl, (c4_amended demoOpen none none).1 rfl⟩,
   ⟨by decide, (c4_amended demoConnecting none none).2.1 (by decide)⟩,
   ⟨rfl, rfl, (c4_amended demoOpen none none).2.2 "p" pubFrameM rfl rfl⟩⟩

/-- C5: the clientId generator does not guarantee non-empty identifiers —
when `Math.random()` returns 0, the double `r + 1` is exactly 1, rendered
`"1"` in base 36, so `substring(7)` yields the empty string; likewise
`r = 0.5` (significand `2 ^ 51` of `1.5`) renders as `"1.i"` and also
yields the empty string. -/
theorem c5_empty_clientId :
    generatedClientId 0 = ""
    ∧ generatedClientId (2 ^ 51) = ""
    ∧ toString36OnePlus (2 ^ 51) = "1.i" :=
  ⟨rfl, rfl, rfl⟩

end NetFieldProxy
